import Mathlib

/-
Verification of the goodwills two-track mixing studio core.

The source is a single React component (src/unnamed/part_000).  Times and
gain values are modelled as rationals; media elements are modelled by their
observable fields (currentTime, duration, volume, paused).  The JS value
NaN is not representable here: a "falsy duration" check like
if (!bg.duration) is modelled as the duration being 0, and Number.isFinite
failing is likewise folded into the dur <= 0 branch of wrapTime.
-/

/-- Truncation toward zero, as the JS remainder operator uses. -/
def jsTrunc (q : ℚ) : ℤ :=
  if q < 0 then ⌈q⌉ else ⌊q⌋

/-- The JS expression t % dur (remainder with the sign of the dividend),
for a finite positive divisor. -/
def jsRem (t d : ℚ) : ℚ :=
  t - d * jsTrunc (t / d)

/-- Embeds wrapTime (src/unnamed/part_000 lines 424-428):
if (!Number.isFinite(dur) || dur <= 0) return 0;
const m = t % dur; return m < 0 ? m + dur : m. -/
def wrapTime (t dur : ℚ) : ℚ :=
  if dur ≤ 0 then 0
  else
    let m := jsRem t dur
    if m < 0 then m + dur else m

/-- Truthiness of a JS string-or-null slot (null and the empty string are
falsy). -/
def jsStrTruthy : Option String → Bool
  | none => false
  | some t => t != ""

/-- Observable studio state for the Glue synchronizer: the two media
elements (presence, currentTime, duration), the progress mirrors, the
previous-reading refs, the re-entrancy guard, the Glue flag and captured
offset, and the transport flags, as held by the component refs and state
hooks (src/unnamed/part_000 lines 91-114). -/
structure Studio where
  bgPresent : Bool
  muPresent : Bool
  bgSrc : Option String
  muSrc : Option String
  bgTime : ℚ
  muTime : ℚ
  bgDur : ℚ
  muDur : ℚ
  bgProgress : ℚ
  muProgress : ℚ
  prevBg : Option ℚ
  prevMu : Option ℚ
  glueGuard : Bool
  isGlued : Bool
  isPlaying : Bool
  isRecording : Bool
  glueOffsetSec : ℚ
  activeMenu : String
  deriving DecidableEq, Repr

/-- Embeds handleBgTimeUpdate (src/unnamed/part_000 lines 431-465).  The
field bgTime holds the value bg.currentTime already has when the handler
fires; prevBg is the prevBgTimeRef cell. -/
def handleBgTimeUpdate (s : Studio) : Studio :=
  if s.bgPresent = false ∨ s.bgDur = 0 then s
  else
    let s1 := { s with bgProgress := s.bgTime / s.bgDur }
    if s1.isGlued = false ∨ s1.isPlaying = false ∨ s1.isRecording = true then
      { s1 with prevBg := some s1.bgTime }
    else if s1.glueGuard = true then
      { s1 with prevBg := some s1.bgTime }
    else
      match s1.prevBg with
      | none => { s1 with prevBg := some s1.bgTime }
      | some prev =>
        let s2 := { s1 with prevBg := some s1.bgTime }
        if s2.bgTime < prev - 1/2 then
          if s2.muPresent = true ∧ s2.muDur ≠ 0 then
            { s2 with
              muTime := wrapTime (s2.muTime + ((s2.bgDur - prev) + s2.bgTime)) s2.muDur,
              muProgress :=
                wrapTime (s2.muTime + ((s2.bgDur - prev) + s2.bgTime)) s2.muDur / s2.muDur,
              glueGuard := false }
          else s2
        else s2

/-- Embeds handleMuTimeUpdate (src/unnamed/part_000 lines 466-497),
symmetric to handleBgTimeUpdate with the roles of the tracks swapped. -/
def handleMuTimeUpdate (s : Studio) : Studio :=
  if s.muPresent = false ∨ s.muDur = 0 then s
  else
    let s1 := { s with muProgress := s.muTime / s.muDur }
    if s1.isGlued = false ∨ s1.isPlaying = false ∨ s1.isRecording = true then
      { s1 with prevMu := some s1.muTime }
    else if s1.glueGuard = true then
      { s1 with prevMu := some s1.muTime }
    else
      match s1.prevMu with
      | none => { s1 with prevMu := some s1.muTime }
      | some prev =>
        let s2 := { s1 with prevMu := some s1.muTime }
        if s2.muTime < prev - 1/2 then
          if s2.bgPresent = true ∧ s2.bgDur ≠ 0 then
            { s2 with
              bgTime := wrapTime (s2.bgTime + ((s2.muDur - prev) + s2.muTime)) s2.bgDur,
              bgProgress :=
                wrapTime (s2.bgTime + ((s2.muDur - prev) + s2.muTime)) s2.bgDur / s2.bgDur,
              glueGuard := false }
          else s2
        else s2

/-- Embeds toggleGlue (src/unnamed/part_000 lines 535-549): no-op when the
SMALL source is falsy; otherwise flips isGlued, and when turning on and
both elements exist, captures offset = mu.currentTime - bg.currentTime. -/
def toggleGlue (s : Studio) : Studio :=
  if jsStrTruthy s.muSrc = false then s
  else
    let next := !s.isGlued
    if next = true ∧ s.bgPresent = true ∧ s.muPresent = true then
      { s with isGlued := next, glueOffsetSec := s.muTime - s.bgTime }
    else
      { s with isGlued := next }

/-- Embeds handleUploadNature (src/unnamed/part_000 lines 604-614); the
argument is the object URL of the picked file, or none when no file was
picked. -/
def handleUploadNature (s : Studio) (picked : Option String) : Studio :=
  match picked with
  | none => s
  | some url =>
    { s with bgSrc := some url, bgProgress := 0, isPlaying := false,
             activeMenu := "none", isGlued := false }

/-- Embeds handleUploadMusic (src/unnamed/part_000 lines 616-626). -/
def handleUploadMusic (s : Studio) (picked : Option String) : Studio :=
  match picked with
  | none => s
  | some url =>
    { s with muSrc := some url, muProgress := 0, isPlaying := false,
             activeMenu := "none", isGlued := false }

/-- Embeds applyPreset (src/unnamed/part_000 lines 631-653): setIsGlued
false and setActiveMenu none always run before the switch; unknown names
return there, known names also set both sources and reset progress and
playback. -/
def applyPreset (s : Studio) (base name : String) : Studio :=
  let s0 := { s with isGlued := false, activeMenu := "none" }
  if name = "Stormbound" then
    { s0 with bgSrc := some (base ++ "presets/storm_nature.mp4"),
              muSrc := some (base ++ "presets/storm_music.mp4"),
              bgProgress := 0, muProgress := 0, isPlaying := false }
  else if name = "SunsetBurn" then
    { s0 with bgSrc := some (base ++ "presets/sunset_nature.mp4"),
              muSrc := some (base ++ "presets/sunset_music.mp4"),
              bgProgress := 0, muProgress := 0, isPlaying := false }
  else if name = "VoidStare" then
    { s0 with bgSrc := some (base ++ "presets/void_nature.mp4"),
              muSrc := some (base ++ "presets/void_music.mp4"),
              bgProgress := 0, muProgress := 0, isPlaying := false }
  else s0

/-- Physical playback for one inter-event interval: both looped media
elements advance by the same wall-clock amount d, each wrapping modulo its
own duration (the video elements carry the loop attribute). -/
def advancePhys (s : Studio) (d : ℚ) : Studio :=
  { s with bgTime := wrapTime (s.bgTime + d) s.bgDur,
           muTime := wrapTime (s.muTime + d) s.muDur }

/-- One simulation step of the glue loop-sync machinery: time advances by
d, then the timeupdate handler of each track fires on the new readings
(BIG first, then SMALL). -/
def simStep (s : Studio) (d : ℚ) : Studio :=
  handleMuTimeUpdate (handleBgTimeUpdate (advancePhys s d))

/-- Iterated simulation with a fixed inter-event gap d. -/
def runSim (s : Studio) (d : ℚ) : ℕ → Studio
  | 0 => s
  | n + 1 => simStep (runSim s d n) d

/-- The glued state right after Glue is enabled with both tracks at 0:
durations 10 s (BIG) and 7 s (SMALL), captured offset 0 - 0 = 0, both
tracks playing, no recording, fresh (null) prev-reading refs.  The Glue
invariant holds exactly here: wrapTime (0 + 0) 7 = 0 = muTime. -/
def glueEnableState : Studio :=
  { bgPresent := true, muPresent := true,
    bgSrc := some "blob:big", muSrc := some "blob:small",
    bgTime := 0, muTime := 0, bgDur := 10, muDur := 7,
    bgProgress := 0, muProgress := 0,
    prevBg := none, prevMu := none,
    glueGuard := false, isGlued := true, isPlaying := true,
    isRecording := false, glueOffsetSec := 0, activeMenu := "none" }

/-- The same studio moments before Glue is enabled: not glued, with a
stale previously captured offset of 42 s left in the ref. -/
def gluePreEnableState : Studio :=
  { glueEnableState with isGlued := false, glueOffsetSec := 42 }

/-- Observable state of the WebAudio layer: whether the shared context was
created (audioCtxRef), element presence, element native volumes, whether
the media-element source nodes exist, and the gain node values (none while
the node does not exist), mirroring the refs in src/unnamed/part_000
lines 116-122. -/
structure AudioGraph where
  ctxCreated : Bool
  bgPresent : Bool
  muPresent : Bool
  bgElemVol : ℚ
  muElemVol : ℚ
  bgSourceNode : Bool
  muSourceNode : Bool
  bgGain : Option ℚ
  muGain : Option ℚ
  masterGain : Option ℚ
  deriving DecidableEq, Repr

/-- Embeds ensureAudioContext (src/unnamed/part_000 lines 153-174).  The
Bool result is true when the call throws: after the early-return check the
code allocates the context, pins any present element volumes to 1, and
then calls ctx.createMediaElementSource(bgRef.current!); when the BIG
element is absent that call throws a TypeError, with the mutations made so
far (context created, volumes pinned) already persisted. -/
def ensureAudioContext (s : AudioGraph) (bgVol masterVol : ℚ) :
    AudioGraph × Bool :=
  if s.ctxCreated = true then (s, false)
  else
    let s1 := { s with ctxCreated := true }
    let s2 := { s1 with
      bgElemVol := if s1.bgPresent = true then 1 else s1.bgElemVol,
      muElemVol := if s1.muPresent = true then 1 else s1.muElemVol }
    if s2.bgPresent = false then (s2, true)
    else
      ({ s2 with bgSourceNode := true, bgGain := some bgVol,
                 masterGain := some masterVol }, false)

/-- Embeds ensureMiniConnected (src/unnamed/part_000 lines 176-187):
no-op without a context, without the SMALL element, or when the SMALL
source node already exists; otherwise creates the SMALL source and gain
nodes with the current SMALL stage value. -/
def ensureMiniConnected (s : AudioGraph) (muVol : ℚ) : AudioGraph :=
  if s.ctxCreated = false then s
  else if s.muPresent = false then s
  else if s.muSourceNode = true then s
  else { s with muSourceNode := true, muGain := some muVol }

/-- Embeds the volume-sync effect (src/unnamed/part_000 lines 189-198):
without a context it writes stage times master products to the element
volumes; with a context it writes the stage values to whichever gain
nodes exist and leaves element volumes alone. -/
def applyVolumeSync (s : AudioGraph) (bgVol muVol masterVol : ℚ) :
    AudioGraph :=
  if s.ctxCreated = false then
    { s with
      bgElemVol := if s.bgPresent = true then bgVol * masterVol else s.bgElemVol,
      muElemVol := if s.muPresent = true then muVol * masterVol else s.muElemVol }
  else
    { s with
      bgGain := if s.bgGain.isSome then some bgVol else s.bgGain,
      muGain := if s.muGain.isSome then some muVol else s.muGain,
      masterGain := if s.masterGain.isSome then some masterVol else s.masterGain }

/-- Embeds RECORD_LIMIT_SEC (src/unnamed/part_000 line 40). -/
def RECORD_LIMIT_SEC : ℕ := 100

/-- The one-shot stop deadline is armed with RECORD_LIMIT_SEC * 1000
milliseconds (src/unnamed/part_000 line 874). -/
def recordTimeoutDelayMs : ℕ := RECORD_LIMIT_SEC * 1000

/-- The periodic stop trigger ticks every 1000 milliseconds
(src/unnamed/part_000 line 871). -/
def recIntervalPeriodMs : ℕ := 1000

/-- Recording session state: recState models recorderRef (none for a null
ref, some true while the MediaRecorder state is recording, some false once
inactive); pendingOnstop records that rec.stop() was requested and the
onstop callback has not run yet; the Set flags model the live refs for the
interval, the timeout, the render loop, the audio tap and the capture
stream; the Count fields count finalize requests and releases so that
double-release would be visible. -/
structure RecSession where
  recState : Option Bool
  pendingOnstop : Bool
  isRecording : Bool
  isPlaying : Bool
  bgPaused : Bool
  muPaused : Bool
  recTime : ℕ
  elapsedSec : ℕ
  intervalSet : Bool
  timeoutSet : Bool
  rafSet : Bool
  audioTapSet : Bool
  streamSet : Bool
  finalizeCount : ℕ
  rafCancelCount : ℕ
  audioReleaseCount : ℕ
  streamStopCount : ℕ
  deriving DecidableEq, Repr

/-- Embeds stopRecording (src/unnamed/part_000 lines 356-373): clears the
interval and the timeout (both guarded by a null check on the ref), pauses
both tracks, clears isPlaying, then calls rec.stop() only when a recorder
exists and its state is recording (which requests finalize and will fire
onstop later); otherwise just clears the recording UI flag. -/
def stopRecording (s : RecSession) : RecSession :=
  let s1 := { s with intervalSet := false, timeoutSet := false,
                     bgPaused := true, muPaused := true, isPlaying := false }
  match s1.recState with
  | some true =>
    { s1 with recState := some false, pendingOnstop := true,
              finalizeCount := s1.finalizeCount + 1 }
  | _ => { s1 with isRecording := false }

/-- Embeds rec.onstop (src/unnamed/part_000 lines 761-799), split into its
guarded stages; this first stage cancels the render loop if it is armed. -/
def recOnstopRaf (s1 : RecSession) : RecSession :=
  if s1.rafSet = true then
    { s1 with rafSet := false, rafCancelCount := s1.rafCancelCount + 1 }
  else s1

/-- The guarded audio-tap disconnect inside onstop. -/
def recOnstopAudio (s3 : RecSession) : RecSession :=
  if s3.audioTapSet = true then
    { s3 with audioTapSet := false,
              audioReleaseCount := s3.audioReleaseCount + 1 }
  else s3

/-- The guarded capture-stream track stop inside onstop. -/
def recOnstopStream (s4 : RecSession) : RecSession :=
  if s4.streamSet = true then
    { s4 with streamSet := false, streamStopCount := s4.streamStopCount + 1 }
  else s4

/-- Full onstop body: cancel the render loop if armed, clear recording UI
state and the recorder ref and both triggers, then release the audio tap
and the stream tracks, each behind its own still-held check. -/
def recOnstop (s : RecSession) : RecSession :=
  if s.pendingOnstop = false then s
  else
    recOnstopStream (recOnstopAudio
      { recOnstopRaf { s with pendingOnstop := false } with
        isRecording := false, recTime := 0, recState := none,
        intervalSet := false, timeoutSet := false })

/-- The 1000 ms interval callback (src/unnamed/part_000 lines 863-871), if
armed: when recTime + 1 reaches RECORD_LIMIT_SEC it calls stopRecording
and resets the visible counter to 0, otherwise it counts up. -/
def recIntervalFire (s1 : RecSession) : RecSession :=
  if s1.intervalSet = true then
    if RECORD_LIMIT_SEC ≤ s1.recTime + 1 then
      { stopRecording s1 with recTime := 0 }
    else { s1 with recTime := s1.recTime + 1 }
  else s1

/-- The one-shot deadline (src/unnamed/part_000 line 874), if still armed
once RECORD_LIMIT_SEC seconds of wall clock have elapsed: calls
stopRecording. -/
def recTimeoutFire (s2 : RecSession) : RecSession :=
  if s2.timeoutSet = true ∧ RECORD_LIMIT_SEC ≤ s2.elapsedSec then
    stopRecording s2
  else s2

/-- One second of wall clock while the session runs: the elapsed counter
advances, then the interval callback fires if armed, then the deadline
fires if armed and due. -/
def secondTick (s : RecSession) : RecSession :=
  recTimeoutFire (recIntervalFire { s with elapsedSec := s.elapsedSec + 1 })

/-- The session state right after startRecording succeeded
(src/unnamed/part_000 lines 856-875): recorder recording, render loop
running, audio tap connected, capture stream live, both stop triggers
armed, counters zeroed. -/
def recStart : RecSession :=
  { recState := some true, pendingOnstop := false, isRecording := true,
    isPlaying := true, bgPaused := false, muPaused := false,
    recTime := 0, elapsedSec := 0,
    intervalSet := true, timeoutSet := true,
    rafSet := true, audioTapSet := true, streamSet := true,
    finalizeCount := 0, rafCancelCount := 0, audioReleaseCount := 0,
    streamStopCount := 0 }

/-- The stopped shape the session settles in once the interval trigger has
fired at the recording ceiling. -/
def recStopped (n : ℕ) : RecSession :=
  { recState := some false, pendingOnstop := true, isRecording := true,
    isPlaying := false, bgPaused := true, muPaused := true,
    recTime := 0, elapsedSec := n,
    intervalSet := false, timeoutSet := false,
    rafSet := true, audioTapSet := true, streamSet := true,
    finalizeCount := 1, rafCancelCount := 0, audioReleaseCount := 0,
    streamStopCount := 0 }

/-- External events that can hit an active recording session: a call to
stopRecording (from any trigger) or delivery of the queued onstop
callback. -/
inductive RecEvent where
  | callStop : RecEvent
  | onstop : RecEvent
  deriving DecidableEq, Repr

/-- Applies one recording event. -/
def recApply (s : RecSession) : RecEvent → RecSession
  | RecEvent.callStop => stopRecording s
  | RecEvent.onstop => recOnstop s

/-- Applies a sequence of recording events in order. -/
def recRun (s : RecSession) : List RecEvent → RecSession
  | [] => s
  | e :: rest => recRun (recApply s e) rest

/-- Prefix test on strings, as the JS String.startsWith used on the QR id. -/
def strStartsWith (s p : String) : Bool :=
  List.isPrefixOf p.data s.data

/-- JSON values as produced by JSON.parse: null, booleans, numbers,
strings, arrays and objects (field lists with the unique keys JSON.parse
leaves after duplicate resolution). -/
inductive Json where
  | null : Json
  | bool : Bool → Json
  | num : ℚ → Json
  | str : String → Json
  | arr : List Json → Json
  | obj : List (String × Json) → Json

/-- Field lookup in a parsed JSON object field list. -/
def lookupField : List (String × Json) → String → Option Json
  | [], _ => none
  | (k, v) :: rest, key => if k = key then some v else lookupField rest key

/-- Property access obj.key in JS on a parsed JSON value: defined only on
objects (arrays and primitives have no such named properties after
JSON.parse), yielding undefined, here none, otherwise. -/
def getProp : Json → String → Option Json
  | Json.obj fields, key => lookupField fields key
  | _, _ => none

/-- JS truthiness of a parsed JSON value: null, false, 0 and the empty
string are falsy; arrays and objects are truthy. -/
def jsTruthy : Json → Bool
  | Json.null => false
  | Json.bool b => b
  | Json.num q => q != 0
  | Json.str t => t != ""
  | Json.arr _ => true
  | Json.obj _ => true

/-- The JS typeof operator on a parsed JSON value (typeof null is
"object", as are arrays). -/
def jsTypeof : Json → String
  | Json.null => "object"
  | Json.bool _ => "boolean"
  | Json.num _ => "number"
  | Json.str _ => "string"
  | Json.arr _ => "object"
  | Json.obj _ => "object"

/-- Embeds isGoodwillsQRPayload (src/unnamed/part_000 lines 217-234) on
the outcome of JSON.parse of the decoded text: none stands for a parse
error (the catch branch returns false); otherwise the chain obj &&
typeof obj === "object" && typeof obj.id === "string" &&
obj.id.startsWith("gw-") && typeof obj.createdAt === "string" &&
obj.volumes && typeof obj.volumes.big === "number" && small && master. -/
def isGoodwillsQRPayload : Option Json → Bool
  | none => false
  | some o =>
    jsTruthy o &&
    (jsTypeof o == "object") &&
    (match getProp o "id" with
     | some (Json.str s) => strStartsWith s "gw-"
     | _ => false) &&
    (match getProp o "createdAt" with
     | some (Json.str _) => true
     | _ => false) &&
    (match getProp o "volumes" with
     | some v =>
       jsTruthy v &&
       (match getProp v "big" with
        | some (Json.num _) => true
        | _ => false) &&
       (match getProp v "small" with
        | some (Json.num _) => true
        | _ => false) &&
       (match getProp v "master" with
        | some (Json.num _) => true
        | _ => false)
     | none => false)

/-- One jsQR decode attempt: none when no code was found in the image,
otherwise the decoded text together with the outcome of JSON.parse on it. -/
def QrDecode : Type := Option (String × Option Json)

/-- One sampled frame of scanGoodwillsQrFromFile: the decode attempt on
the top-left crop and the decode attempt on the full frame. -/
structure ScanFrame where
  crop : QrDecode
  full : QrDecode

/-- The acceptance test the scan applies to one decode attempt
(src/unnamed/part_000 lines 271-274 and 279-282): the decoded data must be
truthy (non-empty) and pass isGoodwillsQRPayload; on success the scan
returns the text and the re-parsed payload. -/
def checkAttempt : QrDecode → Option (String × Json)
  | some (txt, some j) =>
    if (txt != "") && isGoodwillsQRPayload (some j) then some (txt, j)
    else none
  | _ => none

/-- Embeds the sampling loop of scanGoodwillsQrFromFile
(src/unnamed/part_000 lines 259-286): frames are visited in order, the
crop attempt is tried before the full-frame attempt, the first accepted
decode is returned and scanning stops; none models the ok: false result
returned when every sample misses. -/
def scanGoodwillsQr : List ScanFrame → Option (String × Json)
  | [] => none
  | f :: rest =>
    match checkAttempt f.crop with
    | some r => some r
    | none =>
      match checkAttempt f.full with
      | some r => some r
      | none => scanGoodwillsQr rest

/-- The acceptance shape stated by the spec: the decoded text parses as a
JSON object carrying a string id prefixed with the marker gw-, a string
createdAt, and a volumes object with three numeric fields big, small and
master. -/
def GoodwillsShape (parsed : Option Json) : Prop :=
  ∃ fields idStr cStr vFields qb qs qm,
    parsed = some (Json.obj fields) ∧
    lookupField fields "id" = some (Json.str idStr) ∧
    strStartsWith idStr "gw-" = true ∧
    lookupField fields "createdAt" = some (Json.str cStr) ∧
    lookupField fields "volumes" = some (Json.obj vFields) ∧
    lookupField vFields "big" = some (Json.num qb) ∧
    lookupField vFields "small" = some (Json.num qs) ∧
    lookupField vFields "master" = some (Json.num qm)

/-- A frame on which neither decode attempt is accepted. -/
def frameMisses (f : ScanFrame) : Prop :=
  checkAttempt f.crop = none ∧ checkAttempt f.full = none

/-- A sample parsed provenance payload of the shape startRecording burns
into the video. -/
def qrSampleJson : Json :=
  Json.obj
    [("v", Json.str "0.1"),
     ("id", Json.str "gw-1700000000000"),
     ("createdAt", Json.str "2024-01-01T00:00:00.000Z"),
     ("title", Json.str "GOODWILLS_2024-01-01T00-00-00-000Z"),
     ("volumes",
       Json.obj [("big", Json.num 1), ("small", Json.num 0),
                 ("master", Json.num 1)])]

/-- A sampled frame with no QR hit at all. -/
def qrMissFrame : ScanFrame :=
  { crop := none, full := none }

/-- A sampled frame whose top-left crop decodes to the sample payload. -/
def qrHitFrame : ScanFrame :=
  { crop := some ("GWTEXT", some qrSampleJson), full := none }

/-- Embeds readMintPackFile (src/unnamed/part_000 lines 293-306) at the
level of the two archive entries.  The first argument models
zip.file("mint.json"): none when the entry is absent (the code throws
"mint.json not found"), some none when the entry text is present but
JSON.parse throws on it, some (some data) when it parses.  The second
argument models zip.file("video.webm") as the optional video payload. -/
def readMintPackFile (mintEntry : Option (Option Json))
    (videoEntry : Option String) : Except String (Json × Option String) :=
  match mintEntry with
  | none => Except.error "mint.json not found"
  | some none => Except.error "JSON.parse: unexpected token"
  | some (some data) => Except.ok (data, videoEntry)

/-- Safety bookkeeping for a recording session: every finalize request and
resource release happened at most once, and while a resource is still held
its release count is zero (so a further release is the first one). -/
def RecInv (s : RecSession) : Prop :=
  s.finalizeCount ≤ 1 ∧ s.rafCancelCount ≤ 1 ∧ s.audioReleaseCount ≤ 1 ∧
  s.streamStopCount ≤ 1 ∧
  (s.recState = some true → s.finalizeCount = 0) ∧
  (s.rafSet = true → s.rafCancelCount = 0) ∧
  (s.audioTapSet = true → s.audioReleaseCount = 0) ∧
  (s.streamSet = true → s.streamStopCount = 0)

/-- A glued, playing, non-recording studio state with both elements
present and the re-entrancy guard clear; the six rational parameters are
the two current times, the two durations and the two progress mirrors,
followed by the two prev-reading refs and the captured offset. -/
def mkGlueState (bg mu B M p1 p2 : ℚ) (pb pm : Option ℚ) (O : ℚ) : Studio :=
  { bgPresent := true, muPresent := true,
    bgSrc := some "blob:big", muSrc := some "blob:small",
    bgTime := bg, muTime := mu, bgDur := B, muDur := M,
    bgProgress := p1, muProgress := p2,
    prevBg := pb, prevMu := pm,
    glueGuard := false, isGlued := true, isPlaying := true,
    isRecording := false, glueOffsetSec := O, activeMenu := "none" }

theorem jsTrunc_eq_floor (q : ℚ) : jsTrunc q = if q < 0 then -⌊-q⌋ else ⌊q⌋ := by
  unfold jsTrunc
  rcases lt_or_le q 0 with h | h
  · simp [h, Int.floor_neg]
  · simp [not_lt.mpr h]

theorem wrapTime_eq_fract (t M : ℚ) (h : 0 < M) :
    wrapTime t M = M * Int.fract (t / M) := by
  have hM : ¬ (M ≤ 0) := not_le.mpr h
  have hMne : M ≠ 0 := ne_of_gt h
  unfold wrapTime jsRem jsTrunc
  rw [if_neg hM]
  rcases lt_or_le (t / M) 0 with hq | hq
  · rw [if_pos hq]
    rcases eq_or_ne (Int.fract (t / M)) 0 with hf | hf
    · have hz : (⌊t / M⌋ : ℚ) = t / M := by
        have := Int.fract_add_floor (t / M)
        rw [hf] at this
        linarith
      have hc : ⌈t / M⌉ = ⌊t / M⌋ := by
        rw [← hz]
        simp
      rw [hc, hf, mul_zero]
      have : t - M * (⌊t / M⌋ : ℚ) = 0 := by
        rw [hz]
        field_simp
      rw [this, if_neg (lt_irrefl 0)]
    · have hlt : (⌊t / M⌋ : ℚ) < t / M :=
        lt_of_le_of_ne (Int.floor_le _) fun he => hf (by
          rw [← he, Int.fract_intCast])
      have hc : ⌈t / M⌉ = ⌊t / M⌋ + 1 := by
        refine le_antisymm (Int.ceil_le_floor_add_one _) ?_
        rw [Int.add_one_le_iff]
        exact Int.lt_ceil.mpr hlt
      rw [hc]
      push_cast
      have hfr : Int.fract (t / M) = t / M - ⌊t / M⌋ := rfl
      have hneg : t - M * ((⌊t / M⌋ : ℚ) + 1) < 0 := by
        have h1 : Int.fract (t / M) < 1 := Int.fract_lt_one _
        rw [hfr] at h1
        have : t / M < (⌊t / M⌋ : ℚ) + 1 := by linarith
        have := (div_lt_iff h).mp this
        linarith
      rw [if_pos hneg, hfr]
      field_simp
      ring
  · rw [if_neg (not_lt.mpr hq)]
    have hfr : Int.fract (t / M) = t / M - ⌊t / M⌋ := rfl
    have hnn : 0 ≤ t - M * (⌊t / M⌋ : ℚ) := by
      have h0 : (⌊t / M⌋ : ℚ) ≤ t / M := Int.floor_le _
      have := (le_div_iff h).mp h0
      linarith
    rw [if_neg (not_lt.mpr hnn), hfr]
    field_simp

theorem wrapTime_nonneg (t M : ℚ) (h : 0 < M) : 0 ≤ wrapTime t M := by
  rw [wrapTime_eq_fract t M h]
  exact mul_nonneg h.le (Int.fract_nonneg _)

theorem wrapTime_lt (t M : ℚ) (h : 0 < M) : wrapTime t M < M := by
  rw [wrapTime_eq_fract t M h]
  calc M * Int.fract (t / M) < M * 1 :=
        mul_lt_mul_of_pos_left (Int.fract_lt_one _) h
    _ = M := mul_one M

theorem wrapTime_eq_self (t M : ℚ) (hM : 0 < M) (h0 : 0 ≤ t) (h1 : t < M) :
    wrapTime t M = t := by
  rw [wrapTime_eq_fract t M hM]
  have : Int.fract (t / M) = t / M :=
    Int.fract_eq_self.mpr ⟨div_nonneg h0 hM.le, by rw [div_lt_one hM]; linarith⟩
  rw [this]
  field_simp

theorem wrapTime_sub_self (t M : ℚ) (hM : 0 < M) (h0 : M ≤ t) (h1 : t < 2 * M) :
    wrapTime t M = t - M := by
  rw [wrapTime_eq_fract t M hM]
  have h1' : Int.fract (t / M) = Int.fract (t / M - 1) := (Int.fract_sub_int (t / M) 1).symm
  have h2 : Int.fract (t / M - 1) = t / M - 1 := by
    refine Int.fract_eq_self.mpr ⟨?_, ?_⟩
    · have := (le_div_iff hM).mpr (by linarith : 1 * M ≤ t)
      linarith
    · have := (div_lt_iff hM).mpr (by linarith : t < 2 * M)
      linarith
  rw [h1', h2]
  field_simp

theorem wrapTime_add_int_mul (t M : ℚ) (z : ℤ) (hM : 0 < M) :
    wrapTime (t + z * M) M = wrapTime t M := by
  rw [wrapTime_eq_fract _ M hM, wrapTime_eq_fract t M hM]
  have : (t + z * M) / M = t / M + z := by
    field_simp
  rw [this, Int.fract_add_int]

theorem wrapTime_sub_floor (t M : ℚ) (hM : 0 < M) :
    t - wrapTime t M = M * ⌊t / M⌋ := by
  rw [wrapTime_eq_fract t M hM]
  have hfr : Int.fract (t / M) = t / M - ⌊t / M⌋ := rfl
  rw [hfr]
  field_simp

theorem handleBg_noDetect (bg mu B M p1 p2 O p : ℚ) (pm : Option ℚ)
    (hB : B ≠ 0) (h : ¬ (bg < p - 1/2)) :
    handleBgTimeUpdate (mkGlueState bg mu B M p1 p2 (some p) pm O)
      = mkGlueState bg mu B M (bg / B) p2 (some bg) pm O := by
  simp [handleBgTimeUpdate, mkGlueState, hB, h]
  intro hc _
  exact absurd (by linarith : bg < p - 1/2) h

theorem handleBg_firstReading (bg mu B M p1 p2 O : ℚ) (pm : Option ℚ)
    (hB : B ≠ 0) :
    handleBgTimeUpdate (mkGlueState bg mu B M p1 p2 none pm O)
      = mkGlueState bg mu B M (bg / B) p2 (some bg) pm O := by
  simp [handleBgTimeUpdate, mkGlueState, hB]

theorem handleMu_firstReading (bg mu B M p1 p2 O : ℚ) (pb : Option ℚ)
    (hM : M ≠ 0) :
    handleMuTimeUpdate (mkGlueState bg mu B M p1 p2 pb none O)
      = mkGlueState bg mu B M p1 (mu / M) pb (some mu) O := by
  simp [handleMuTimeUpdate, mkGlueState, hM]

theorem handleBg_detect (bg mu B M p1 p2 O p : ℚ) (pm : Option ℚ)
    (hB : B ≠ 0) (hM : M ≠ 0) (h : bg < p - 1/2) :
    handleBgTimeUpdate (mkGlueState bg mu B M p1 p2 (some p) pm O)
      = mkGlueState bg (wrapTime (mu + ((B - p) + bg)) M) B M (bg / B)
          (wrapTime (mu + ((B - p) + bg)) M / M) (some bg) pm O := by
  simp [handleBgTimeUpdate, mkGlueState, hB, hM, h]
  intro hc
  exfalso
  linarith

theorem handleMu_noDetect (bg mu B M p1 p2 O q : ℚ) (pb : Option ℚ)
    (hM : M ≠ 0) (h : ¬ (mu < q - 1/2)) :
    handleMuTimeUpdate (mkGlueState bg mu B M p1 p2 pb (some q) O)
      = mkGlueState bg mu B M p1 (mu / M) pb (some mu) O := by
  simp [handleMuTimeUpdate, mkGlueState, hM, h]
  intro hc _
  exact absurd (by linarith : mu < q - 1/2) h

theorem handleMu_detect (bg mu B M p1 p2 O q : ℚ) (pb : Option ℚ)
    (hB : B ≠ 0) (hM : M ≠ 0) (h : mu < q - 1/2) :
    handleMuTimeUpdate (mkGlueState bg mu B M p1 p2 pb (some q) O)
      = mkGlueState (wrapTime (bg + ((M - q) + mu)) B) mu B M
          (wrapTime (bg + ((M - q) + mu)) B / B) (mu / M) pb (some mu) O := by
  simp [handleMuTimeUpdate, mkGlueState, hB, hM, h]
  intro hc
  exfalso
  linarith

/-- C2: on a timeupdate of track X with previous reading prevX, while Glue
is enabled, playback is active and no recording is active, a backward jump
greater than 0.5 s makes the handler set the other track Y to
wrapTime (Y.currentTime + ((X.duration - prevX) + X.currentTime)) Y.duration,
and a backward jump of 0.5 s or less leaves Y untouched; stated for both
tracks over any glued playing state with both elements present. -/
theorem glue_wrap_delta_transfer (bg mu B M p1 p2 O p q : ℚ)
    (hB : B ≠ 0) (hM : M ≠ 0) :
    (bg < p - 1/2 →
      (handleBgTimeUpdate (mkGlueState bg mu B M p1 p2 (some p) (some q) O)).muTime
        = wrapTime (mu + ((B - p) + bg)) M) ∧
    (p - 1/2 ≤ bg →
      (handleBgTimeUpdate (mkGlueState bg mu B M p1 p2 (some p) (some q) O)).muTime
        = mu) ∧
    (mu < q - 1/2 →
      (handleMuTimeUpdate (mkGlueState bg mu B M p1 p2 (some p) (some q) O)).bgTime
        = wrapTime (bg + ((M - q) + mu)) B) ∧
    (q - 1/2 ≤ mu →
      (handleMuTimeUpdate (mkGlueState bg mu B M p1 p2 (some p) (some q) O)).bgTime
        = bg) := by
  refine ⟨?_, ?_, ?_, ?_⟩
  · intro h
    rw [handleBg_detect bg mu B M p1 p2 O p (some q) hB hM h]
    rfl
  · intro h
    rw [handleBg_noDetect bg mu B M p1 p2 O p (some q) hB (by linarith)]
    rfl
  · intro h
    rw [handleMu_detect bg mu B M p1 p2 O q (some p) hB hM h]
    rfl
  · intro h
    rw [handleMu_noDetect bg mu B M p1 p2 O q (some p) hM (by linarith)]
    rfl

/-- Witness for glue_wrap_delta_transfer: BIG wrapped from a previous
reading of 9.75 s to 0 s (durations 10 and 7, SMALL at 3 s), so SMALL is
moved to wrapTime (3 + ((10 - 9.75) + 0)) 7 = 3.25 s; symmetrically a
0.25 s backward jump within threshold leaves SMALL untouched. -/
theorem glue_wrap_delta_transfer_witness :
    (handleBgTimeUpdate (mkGlueState 0 3 10 7 0 0 (some (39/4)) (some (11/4)) 0)).muTime
      = wrapTime (3 + ((10 - 39/4) + 0)) 7 ∧
    wrapTime (3 + ((10 - 39/4) + 0)) 7 = 13/4 ∧
    (handleBgTimeUpdate (mkGlueState (37/4) 3 10 7 0 0 (some (19/2)) (some (11/4)) 0)).muTime
      = 3 := by
  refine ⟨?_, ?_, ?_⟩
  · exact (glue_wrap_delta_transfer 0 3 10 7 0 0 0 (39/4) (11/4)
      (by norm_num) (by norm_num)).1 (by norm_num)
  · norm_num [wrapTime, jsRem, jsTrunc_eq_floor]
  · exact (glue_wrap_delta_transfer (37/4) 3 10 7 0 0 0 (19/2) (11/4)
      (by norm_num) (by norm_num)).2.1 (by norm_num)

/-- C3: toggleGlue is a no-op when SMALL has no (truthy) source; otherwise
it flips the enabled flag, and whenever it turns Glue on with both
elements present it captures offsetSeconds = SMALL.currentTime -
BIG.currentTime at that instant, so toggling off and then on recaptures
the current difference regardless of the previously stored offset. -/
theorem toggleGlue_contract (s : Studio) :
    (jsStrTruthy s.muSrc = false → toggleGlue s = s) ∧
    (jsStrTruthy s.muSrc = true → (toggleGlue s).isGlued = !s.isGlued) ∧
    (jsStrTruthy s.muSrc = true → s.isGlued = false → s.bgPresent = true →
      s.muPresent = true →
      (toggleGlue s).glueOffsetSec = s.muTime - s.bgTime) ∧
    (jsStrTruthy s.muSrc = true → s.isGlued = true → s.bgPresent = true →
      s.muPresent = true →
      (toggleGlue (toggleGlue s)).glueOffsetSec = s.muTime - s.bgTime ∧
      (toggleGlue (toggleGlue s)).isGlued = true) := by
  refine ⟨?_, ?_, ?_, ?_⟩
  · intro h
    simp [toggleGlue, h]
  · intro h
    unfold toggleGlue
    rw [if_neg (by simp [h])]
    by_cases hc : (!s.isGlued) = true ∧ s.bgPresent = true ∧ s.muPresent = true
    · rw [if_pos hc]
    · rw [if_neg hc]
  · intro h hg hb hm
    unfold toggleGlue
    rw [if_neg (by simp [h]), if_pos (by simp [hg, hb, hm])]
  · intro h hg hb hm
    have ht : toggleGlue s = { s with isGlued := false } := by
      unfold toggleGlue
      rw [if_neg (by simp [h]), if_neg (by simp [hg]), hg]
      rfl
    rw [ht]
    unfold toggleGlue
    rw [if_neg (by simp [h]), if_pos (by simp [hb, hm])]
    exact ⟨rfl, rfl⟩

/-- Witness for toggleGlue_contract: with a loaded SMALL source, BIG at
2 s and SMALL at 5 s, enabling captures offset 3; and from a glued state
with stale offset 42, toggling off then on recaptures 3. -/
theorem toggleGlue_contract_witness :
    (toggleGlue (mkGlueState 2 5 10 7 0 0 none none 42)).isGlued = false ∧
    (toggleGlue (toggleGlue (mkGlueState 2 5 10 7 0 0 none none 42))).glueOffsetSec
      = 3 ∧
    (toggleGlue (toggleGlue (mkGlueState 2 5 10 7 0 0 none none 42))).isGlued
      = true := by
  have h := toggleGlue_contract (mkGlueState 2 5 10 7 0 0 none none 42)
  refine ⟨?_, ?_, ?_⟩
  · rw [h.2.1 (by rfl)]
    rfl
  · have h4 := h.2.2.2 (by rfl) (by rfl) (by rfl) (by rfl)
    rw [h4.1]
    norm_num [mkGlueState]
  · exact (h.2.2.2 (by rfl) (by rfl) (by rfl) (by rfl)).2

/-- C10: loading a new source into either track, or applying any preset
(known or unknown name), always writes isGlued := false, so a previously
captured offset is no longer applied after a source change; file uploads
with no file picked are no-ops. -/
theorem source_change_disables_glue (s : Studio) (url base name : String) :
    (handleUploadNature s (some url)).isGlued = false ∧
    (handleUploadMusic s (some url)).isGlued = false ∧
    (applyPreset s base name).isGlued = false ∧
    handleUploadNature s none = s ∧
    handleUploadMusic s none = s := by
  refine ⟨rfl, rfl, ?_, rfl, rfl⟩
  unfold applyPreset
  split_ifs <;> rfl

/-- C1 (amended): starting from an exact Glue invariant
wrapTime (bigTime + O) smallDuration = smallTime with fresh prev readings,
one simulation step of gap d in which only the SMALL track wraps its loop
(BIG stays inside its duration) leaves the invariant discrepancy at
exactly d, the inter-update gap, i.e. within a small tolerance for
realistic update cadences; a BIG-side wrap does not restore the invariant
(see the counterexample). -/
theorem glue_invariant_small_wrap_restored
    (bg mu B M p1 p2 O d : ℚ)
    (hd : 0 < d) (hdM : d + 1/2 < M)
    (hbg0 : 0 ≤ bg) (hbgB : bg + 2*d < B)
    (hmuw : M ≤ mu + d) (hmuM : mu < M) (hmu2 : mu + 2*d < 2*M)
    (hInv : wrapTime (bg + O) M = mu) :
    wrapTime ((simStep (mkGlueState bg mu B M p1 p2 (some bg) (some mu) O) d).bgTime
        + O)
      (simStep (mkGlueState bg mu B M p1 p2 (some bg) (some mu) O) d).muDur
      - (simStep (mkGlueState bg mu B M p1 p2 (some bg) (some mu) O) d).muTime
      = d := by
  have hM0 : 0 < M := by linarith
  have hB0 : 0 < B := by linarith
  have hmu0 : 0 ≤ mu := hInv ▸ wrapTime_nonneg (bg + O) M hM0
  have hA : advancePhys (mkGlueState bg mu B M p1 p2 (some bg) (some mu) O) d
      = mkGlueState (bg + d) (mu + d - M) B M p1 p2 (some bg) (some mu) O := by
    unfold advancePhys mkGlueState
    rw [wrapTime_eq_self (bg + d) B hB0 (by linarith) (by linarith),
        wrapTime_sub_self (mu + d) M hM0 hmuw (by linarith)]
  unfold simStep
  rw [hA,
    handleBg_noDetect (bg + d) (mu + d - M) B M p1 p2 O bg (some mu)
      hB0.ne' (by intro hc; linarith),
    handleMu_detect (bg + d) (mu + d - M) B M ((bg + d) / B) p2 O mu
      (some (bg + d)) hB0.ne' hM0.ne' (by linarith)]
  have e1 : (bg + d) + ((M - mu) + (mu + d - M)) = bg + 2*d := by ring
  rw [e1, wrapTime_eq_self (bg + 2*d) B hB0 (by linarith) hbgB]
  show wrapTime ((bg + 2*d) + O) M - (mu + d - M) = d
  have hz : bg + O - mu = M * (⌊(bg + O) / M⌋ : ℤ) := by
    have hw := wrapTime_sub_floor (bg + O) M hM0
    rw [hInv] at hw
    exact_mod_cast hw
  have e2 : (bg + 2*d) + O = (mu + 2*d) + (⌊(bg + O) / M⌋ : ℤ) * M := by
    push_cast at hz
    linarith
  rw [e2, wrapTime_add_int_mul (mu + 2*d) M ⌊(bg + O) / M⌋ hM0,
    wrapTime_sub_self (mu + 2*d) M hM0 (by linarith) hmu2]
  ring

/-- Witness for glue_invariant_small_wrap_restored: BIG duration 10,
SMALL duration 7, BIG at 0 with offset 6.75 (so SMALL at 6.75), gap
0.25 s: SMALL wraps and the resulting discrepancy is exactly 0.25 s. -/
theorem glue_invariant_small_wrap_restored_witness :
    wrapTime ((simStep (mkGlueState 0 (27/4) 10 7 0 0 (some 0) (some (27/4)) (27/4))
          (1/4)).bgTime + 27/4)
      (simStep (mkGlueState 0 (27/4) 10 7 0 0 (some 0) (some (27/4)) (27/4))
          (1/4)).muDur
      - (simStep (mkGlueState 0 (27/4) 10 7 0 0 (some 0) (some (27/4)) (27/4))
          (1/4)).muTime = 1/4 :=
  glue_invariant_small_wrap_restored 0 (27/4) 10 7 0 0 (27/4) (1/4)
    (by norm_num) (by norm_num) (by norm_num) (by norm_num) (by norm_num)
    (by norm_num) (by norm_num)
    (by norm_num [wrapTime, jsRem, jsTrunc_eq_floor])

/-- C1 counterexample: enabling Glue from a stale offset captures offset
0 with both tracks at 0 (durations 10 s BIG, 7 s SMALL), so the invariant
wrapTime (bigTime + O) smallDuration = smallTime holds exactly; then nine
simulated seconds of playback with one-second timeupdate events, in which
SMALL wraps once (at 7 s) and BIG wraps once (at 10 s), each wrap handled
by the handlers, leave SMALL at 3 while wrapTime (bigTime + O,
smallDuration) is 0: a discrepancy of 3 s, six times the 0.5 s threshold
the code itself uses, refuting the claim that the invariant stays within
a small tolerance after loop wraps on either track. -/
theorem glue_invariant_big_wrap_counterexample :
    (toggleGlue gluePreEnableState).isGlued = true ∧
    (toggleGlue gluePreEnableState).glueOffsetSec
      = glueEnableState.glueOffsetSec ∧
    wrapTime (glueEnableState.bgTime + glueEnableState.glueOffsetSec)
        glueEnableState.muDur = glueEnableState.muTime ∧
    (runSim glueEnableState 1 9).muTime
      - wrapTime ((runSim glueEnableState 1 9).bgTime
          + (runSim glueEnableState 1 9).glueOffsetSec)
        (runSim glueEnableState 1 9).muDur = 3 ∧
    ¬ ((runSim glueEnableState 1 9).muTime
      - wrapTime ((runSim glueEnableState 1 9).bgTime
          + (runSim glueEnableState 1 9).glueOffsetSec)
        (runSim glueEnableState 1 9).muDur ≤ 1/2) := by
  have h0 : runSim glueEnableState 1 0
      = mkGlueState (0) (0) 10 7 (0) (0) none none 0 := rfl
  have a1 : advancePhys (mkGlueState (0) (0) 10 7 (0) (0) none none 0) 1
      = mkGlueState (1) (1) 10 7 (0) (0) none none 0 := by
    unfold advancePhys mkGlueState
    rw [show (0:ℚ) + 1 = 1 by norm_num,
        wrapTime_eq_self 1 10 (by norm_num) (by norm_num) (by norm_num),
        wrapTime_eq_self 1 7 (by norm_num) (by norm_num) (by norm_num)]
  have b1 : handleBgTimeUpdate (mkGlueState (1) (1) 10 7 (0) (0) none none 0)
      = mkGlueState (1) (1) 10 7 (1/10) (0) (some 1) none 0 :=
    handleBg_firstReading (1) (1) 10 7 (0) (0) 0 none (by norm_num)
  have m1 : handleMuTimeUpdate (mkGlueState (1) (1) 10 7 (1/10) (0) (some 1) none 0)
      = mkGlueState (1) (1) 10 7 (1/10) (1/7) (some 1) (some 1) 0 :=
    handleMu_firstReading (1) (1) 10 7 (1/10) (0) 0 (some 1) (by norm_num)
  have h1 : runSim glueEnableState 1 1
      = mkGlueState (1) (1) 10 7 (1/10) (1/7) (some 1) (some 1) 0 := by
    rw [show runSim glueEnableState 1 1
          = simStep (runSim glueEnableState 1 0) 1 from rfl,
        h0]
    unfold simStep
    rw [a1, b1, m1]
  have a2 : advancePhys (mkGlueState (1) (1) 10 7 (1/10) (1/7) (some 1) (some 1) 0) 1
      = mkGlueState (2) (2) 10 7 (1/10) (1/7) (some 1) (some 1) 0 := by
    unfold advancePhys mkGlueState
    rw [show (1:ℚ) + 1 = 2 by norm_num,
        wrapTime_eq_self 2 10 (by norm_num) (by norm_num) (by norm_num),
        wrapTime_eq_self 2 7 (by norm_num) (by norm_num) (by norm_num)]
  have b2 : handleBgTimeUpdate (mkGlueState (2) (2) 10 7 (1/10) (1/7) (some 1) (some 1) 0)
      = mkGlueState (2) (2) 10 7 (2/10) (1/7) (some 2) (some 1) 0 :=
    handleBg_noDetect (2) (2) 10 7 (1/10) (1/7) 0 (1) (some 1) (by norm_num) (by norm_num)
  have m2 : handleMuTimeUpdate (mkGlueState (2) (2) 10 7 (2/10) (1/7) (some 2) (some 1) 0)
      = mkGlueState (2) (2) 10 7 (2/10) (2/7) (some 2) (some 2) 0 :=
    handleMu_noDetect (2) (2) 10 7 (2/10) (1/7) 0 (1) (some 2) (by norm_num) (by norm_num)
  have h2 : runSim glueEnableState 1 2
      = mkGlueState (2) (2) 10 7 (2/10) (2/7) (some 2) (some 2) 0 := by
    rw [show runSim glueEnableState 1 2
          = simStep (runSim glueEnableState 1 1) 1 from rfl,
        h1]
    unfold simStep
    rw [a2, b2, m2]
  have a3 : advancePhys (mkGlueState (2) (2) 10 7 (2/10) (2/7) (some 2) (some 2) 0) 1
      = mkGlueState (3) (3) 10 7 (2/10) (2/7) (some 2) (some 2) 0 := by
    unfold advancePhys mkGlueState
    rw [show (2:ℚ) + 1 = 3 by norm_num,
        wrapTime_eq_self 3 10 (by norm_num) (by norm_num) (by norm_num),
        wrapTime_eq_self 3 7 (by norm_num) (by norm_num) (by norm_num)]
  have b3 : handleBgTimeUpdate (mkGlueState (3) (3) 10 7 (2/10) (2/7) (some 2) (some 2) 0)
      = mkGlueState (3) (3) 10 7 (3/10) (2/7) (some 3) (some 2) 0 :=
    handleBg_noDetect (3) (3) 10 7 (2/10) (2/7) 0 (2) (some 2) (by norm_num) (by norm_num)
  have m3 : handleMuTimeUpdate (mkGlueState (3) (3) 10 7 (3/10) (2/7) (some 3) (some 2) 0)
      = mkGlueState (3) (3) 10 7 (3/10) (3/7) (some 3) (some 3) 0 :=
    handleMu_noDetect (3) (3) 10 7 (3/10) (2/7) 0 (2) (some 3) (by norm_num) (by norm_num)
  have h3 : runSim glueEnableState 1 3
      = mkGlueState (3) (3) 10 7 (3/10) (3/7) (some 3) (some 3) 0 := by
    rw [show runSim glueEnableState 1 3
          = simStep (runSim glueEnableState 1 2) 1 from rfl,
        h2]
    unfold simStep
    rw [a3, b3, m3]
  have a4 : advancePhys (mkGlueState (3) (3) 10 7 (3/10) (3/7) (some 3) (some 3) 0) 1
      = mkGlueState (4) (4) 10 7 (3/10) (3/7) (some 3) (some 3) 0 := by
    unfold advancePhys mkGlueState
    rw [show (3:ℚ) + 1 = 4 by norm_num,
        wrapTime_eq_self 4 10 (by norm_num) (by norm_num) (by norm_num),
        wrapTime_eq_self 4 7 (by norm_num) (by norm_num) (by norm_num)]
  have b4 : handleBgTimeUpdate (mkGlueState (4) (4) 10 7 (3/10) (3/7) (some 3) (some 3) 0)
      = mkGlueState (4) (4) 10 7 (4/10) (3/7) (some 4) (some 3) 0 :=
    handleBg_noDetect (4) (4) 10 7 (3/10) (3/7) 0 (3) (some 3) (by norm_num) (by norm_num)
  have m4 : handleMuTimeUpdate (mkGlueState (4) (4) 10 7 (4/10) (3/7) (some 4) (some 3) 0)
      = mkGlueState (4) (4) 10 7 (4/10) (4/7) (some 4) (some 4) 0 :=
    handleMu_noDetect (4) (4) 10 7 (4/10) (3/7) 0 (3) (some 4) (by norm_num) (by norm_num)
  have h4 : runSim glueEnableState 1 4
      = mkGlueState (4) (4) 10 7 (4/10) (4/7) (some 4) (some 4) 0 := by
    rw [show runSim glueEnableState 1 4
          = simStep (runSim glueEnableState 1 3) 1 from rfl,
        h3]
    unfold simStep
    rw [a4, b4, m4]
  have a5 : advancePhys (mkGlueState (4) (4) 10 7 (4/10) (4/7) (some 4) (some 4) 0) 1
      = mkGlueState (5) (5) 10 7 (4/10) (4/7) (some 4) (some 4) 0 := by
    unfold advancePhys mkGlueState
    rw [show (4:ℚ) + 1 = 5 by norm_num,
        wrapTime_eq_self 5 10 (by norm_num) (by norm_num) (by norm_num),
        wrapTime_eq_self 5 7 (by norm_num) (by norm_num) (by norm_num)]
  have b5 : handleBgTimeUpdate (mkGlueState (5) (5) 10 7 (4/10) (4/7) (some 4) (some 4) 0)
      = mkGlueState (5) (5) 10 7 (5/10) (4/7) (some 5) (some 4) 0 :=
    handleBg_noDetect (5) (5) 10 7 (4/10) (4/7) 0 (4) (some 4) (by norm_num) (by norm_num)
  have m5 : handleMuTimeUpdate (mkGlueState (5) (5) 10 7 (5/10) (4/7) (some 5) (some 4) 0)
      = mkGlueState (5) (5) 10 7 (5/10) (5/7) (some 5) (some 5) 0 :=
    handleMu_noDetect (5) (5) 10 7 (5/10) (4/7) 0 (4) (some 5) (by norm_num) (by norm_num)
  have h5 : runSim glueEnableState 1 5
      = mkGlueState (5) (5) 10 7 (5/10) (5/7) (some 5) (some 5) 0 := by
    rw [show runSim glueEnableState 1 5
          = simStep (runSim glueEnableState 1 4) 1 from rfl,
        h4]
    unfold simStep
    rw [a5, b5, m5]
  have a6 : advancePhys (mkGlueState (5) (5) 10 7 (5/10) (5/7) (some 5) (some 5) 0) 1
      = mkGlueState (6) (6) 10 7 (5/10) (5/7) (some 5) (some 5) 0 := by
    unfold advancePhys mkGlueState
    rw [show (5:ℚ) + 1 = 6 by norm_num,
        wrapTime_eq_self 6 10 (by norm_num) (by norm_num) (by norm_num),
        wrapTime_eq_self 6 7 (by norm_num) (by norm_num) (by norm_num)]
  have b6 : handleBgTimeUpdate (mkGlueState (6) (6) 10 7 (5/10) (5/7) (some 5) (some 5) 0)
      = mkGlueState (6) (6) 10 7 (6/10) (5/7) (some 6) (some 5) 0 :=
    handleBg_noDetect (6) (6) 10 7 (5/10) (5/7) 0 (5) (some 5) (by norm_num) (by norm_num)
  have m6 : handleMuTimeUpdate (mkGlueState (6) (6) 10 7 (6/10) (5/7) (some 6) (some 5) 0)
      = mkGlueState (6) (6) 10 7 (6/10) (6/7) (some 6) (some 6) 0 :=
    handleMu_noDetect (6) (6) 10 7 (6/10) (5/7) 0 (5) (some 6) (by norm_num) (by norm_num)
  have h6 : runSim glueEnableState 1 6
      = mkGlueState (6) (6) 10 7 (6/10) (6/7) (some 6) (some 6) 0 := by
    rw [show runSim glueEnableState 1 6
          = simStep (runSim glueEnableState 1 5) 1 from rfl,
        h5]
    unfold simStep
    rw [a6, b6, m6]
  have a7 : advancePhys (mkGlueState (6) (6) 10 7 (6/10) (6/7) (some 6) (some 6) 0) 1
      = mkGlueState (7) (0) 10 7 (6/10) (6/7) (some 6) (some 6) 0 := by
    unfold advancePhys mkGlueState
    rw [show (6:ℚ) + 1 = 7 by norm_num,
        wrapTime_eq_self 7 10 (by norm_num) (by norm_num) (by norm_num),
        wrapTime_sub_self 7 7 (by norm_num) (by norm_num) (by norm_num),
        show (7:ℚ) - 7 = 0 by norm_num]
  have b7 : handleBgTimeUpdate (mkGlueState (7) (0) 10 7 (6/10) (6/7) (some 6) (some 6) 0)
      = mkGlueState (7) (0) 10 7 (7/10) (6/7) (some 7) (some 6) 0 :=
    handleBg_noDetect (7) (0) 10 7 (6/10) (6/7) 0 (6) (some 6) (by norm_num) (by norm_num)
  have m7 : handleMuTimeUpdate (mkGlueState (7) (0) 10 7 (7/10) (6/7) (some 7) (some 6) 0)
      = mkGlueState (8) (0) 10 7 (8/10) (0/7) (some 7) (some 0) 0 := by
    rw [handleMu_detect (7) (0) 10 7 (7/10) (6/7) 0 (6) (some 7) (by norm_num) (by norm_num) (by norm_num),
        show (7:ℚ) + ((7 - 6) + 0) = 8 by norm_num,
        wrapTime_eq_self 8 10 (by norm_num) (by norm_num) (by norm_num)]
  have h7 : runSim glueEnableState 1 7
      = mkGlueState (8) (0) 10 7 (8/10) (0/7) (some 7) (some 0) 0 := by
    rw [show runSim glueEnableState 1 7
          = simStep (runSim glueEnableState 1 6) 1 from rfl,
        h6]
    unfold simStep
    rw [a7, b7, m7]
  have a8 : advancePhys (mkGlueState (8) (0) 10 7 (8/10) (0/7) (some 7) (some 0) 0) 1
      = mkGlueState (9) (1) 10 7 (8/10) (0/7) (some 7) (some 0) 0 := by
    unfold advancePhys mkGlueState
    rw [show (8:ℚ) + 1 = 9 by norm_num,
        show (0:ℚ) + 1 = 1 by norm_num,
        wrapTime_eq_self 9 10 (by norm_num) (by norm_num) (by norm_num),
        wrapTime_eq_self 1 7 (by norm_num) (by norm_num) (by norm_num)]
  have b8 : handleBgTimeUpdate (mkGlueState (9) (1) 10 7 (8/10) (0/7) (some 7) (some 0) 0)
      = mkGlueState (9) (1) 10 7 (9/10) (0/7) (some 9) (some 0) 0 :=
    handleBg_noDetect (9) (1) 10 7 (8/10) (0/7) 0 (7) (some 0) (by norm_num) (by norm_num)
  have m8 : handleMuTimeUpdate (mkGlueState (9) (1) 10 7 (9/10) (0/7) (some 9) (some 0) 0)
      = mkGlueState (9) (1) 10 7 (9/10) (1/7) (some 9) (some 1) 0 :=
    handleMu_noDetect (9) (1) 10 7 (9/10) (0/7) 0 (0) (some 9) (by norm_num) (by norm_num)
  have h8 : runSim glueEnableState 1 8
      = mkGlueState (9) (1) 10 7 (9/10) (1/7) (some 9) (some 1) 0 := by
    rw [show runSim glueEnableState 1 8
          = simStep (runSim glueEnableState 1 7) 1 from rfl,
        h7]
    unfold simStep
    rw [a8, b8, m8]
  have a9 : advancePhys (mkGlueState (9) (1) 10 7 (9/10) (1/7) (some 9) (some 1) 0) 1
      = mkGlueState (0) (2) 10 7 (9/10) (1/7) (some 9) (some 1) 0 := by
    unfold advancePhys mkGlueState
    rw [show (9:ℚ) + 1 = 10 by norm_num,
        show (1:ℚ) + 1 = 2 by norm_num,
        wrapTime_sub_self 10 10 (by norm_num) (by norm_num) (by norm_num),
        wrapTime_eq_self 2 7 (by norm_num) (by norm_num) (by norm_num),
        show (10:ℚ) - 10 = 0 by norm_num]
  have b9 : handleBgTimeUpdate (mkGlueState (0) (2) 10 7 (9/10) (1/7) (some 9) (some 1) 0)
      = mkGlueState (0) (3) 10 7 (0/10) (3/7) (some 0) (some 1) 0 := by
    rw [handleBg_detect (0) (2) 10 7 (9/10) (1/7) 0 (9) (some 1) (by norm_num) (by norm_num) (by norm_num),
        show (2:ℚ) + ((10 - 9) + 0) = 3 by norm_num,
        wrapTime_eq_self 3 7 (by norm_num) (by norm_num) (by norm_num)]
  have m9 : handleMuTimeUpdate (mkGlueState (0) (3) 10 7 (0/10) (3/7) (some 0) (some 1) 0)
      = mkGlueState (0) (3) 10 7 (0/10) (3/7) (some 0) (some 3) 0 :=
    handleMu_noDetect (0) (3) 10 7 (0/10) (3/7) 0 (1) (some 0) (by norm_num) (by norm_num)
  have h9 : runSim glueEnableState 1 9
      = mkGlueState (0) (3) 10 7 (0/10) (3/7) (some 0) (some 3) 0 := by
    rw [show runSim glueEnableState 1 9
          = simStep (runSim glueEnableState 1 8) 1 from rfl,
        h8]
    unfold simStep
    rw [a9, b9, m9]
  have hbs : (("blob:small" : String) != "") = true := by decide
  have htg : toggleGlue gluePreEnableState
      = { glueEnableState with isGlued := true, glueOffsetSec := (0:ℚ) - 0 } := by
    simp [toggleGlue, gluePreEnableState, glueEnableState, jsStrTruthy, hbs]
  refine ⟨?_, ?_, ?_, ?_, ?_⟩
  · rw [htg]
  · rw [htg]
    show (0:ℚ) - 0 = 0
    norm_num
  · show wrapTime ((0:ℚ) + 0) 7 = 0
    rw [show (0:ℚ) + 0 = 0 by norm_num,
        wrapTime_eq_self 0 7 (by norm_num) (by norm_num) (by norm_num)]
  · rw [h9]
    show (3:ℚ) - wrapTime (0 + 0) 7 = 3
    rw [show (0:ℚ) + 0 = 0 by norm_num,
        wrapTime_eq_self 0 7 (by norm_num) (by norm_num) (by norm_num)]
    norm_num
  · rw [h9]
    show ¬ ((3:ℚ) - wrapTime (0 + 0) 7 ≤ 1/2)
    rw [show (0:ℚ) + 0 = 0 by norm_num,
        wrapTime_eq_self 0 7 (by norm_num) (by norm_num) (by norm_num)]
    norm_num

/-- C4: for every gain change, before the audio context exists the
volume-sync effect writes stage times master to each present element
volume and touches no node; after it exists the effect writes the stage
values directly to whichever gain nodes exist and leaves element volumes
alone; a successful graph construction pins present element volumes to 1
and installs the BIG and master stage values in the new nodes; and the
switch is one-directional: every modelled operation preserves ctxCreated
once it is true, with ensureAudioContext becoming a pure no-op. -/
theorem gain_stage_mechanism (s : AudioGraph) (v1 v2 v3 : ℚ) :
    (s.ctxCreated = false →
      (s.bgPresent = true →
        (applyVolumeSync s v1 v2 v3).bgElemVol = v1 * v3) ∧
      (s.muPresent = true →
        (applyVolumeSync s v1 v2 v3).muElemVol = v2 * v3) ∧
      (applyVolumeSync s v1 v2 v3).bgGain = s.bgGain ∧
      (applyVolumeSync s v1 v2 v3).muGain = s.muGain ∧
      (applyVolumeSync s v1 v2 v3).masterGain = s.masterGain) ∧
    (s.ctxCreated = true →
      (applyVolumeSync s v1 v2 v3).bgElemVol = s.bgElemVol ∧
      (applyVolumeSync s v1 v2 v3).muElemVol = s.muElemVol ∧
      (s.bgGain.isSome = true → (applyVolumeSync s v1 v2 v3).bgGain = some v1) ∧
      (s.muGain.isSome = true → (applyVolumeSync s v1 v2 v3).muGain = some v2) ∧
      (s.masterGain.isSome = true →
        (applyVolumeSync s v1 v2 v3).masterGain = some v3)) ∧
    (s.ctxCreated = false → s.bgPresent = true →
      (ensureAudioContext s v1 v3).1.bgElemVol = 1 ∧
      (s.muPresent = true → (ensureAudioContext s v1 v3).1.muElemVol = 1) ∧
      (ensureAudioContext s v1 v3).1.bgGain = some v1 ∧
      (ensureAudioContext s v1 v3).1.masterGain = some v3 ∧
      (ensureAudioContext s v1 v3).2 = false) ∧
    (s.ctxCreated = true →
      (applyVolumeSync s v1 v2 v3).ctxCreated = true ∧
      (ensureMiniConnected s v2).ctxCreated = true ∧
      ensureAudioContext s v1 v3 = (s, false)) := by
  refine ⟨?_, ?_, ?_, ?_⟩
  · intro h
    refine ⟨?_, ?_, ?_, ?_, ?_⟩ <;> simp [applyVolumeSync, h]
    · intro hb
      simp [hb]
    · intro hm
      simp [hm]
  · intro h
    refine ⟨?_, ?_, ?_, ?_, ?_⟩
    · simp [applyVolumeSync, h]
    · simp [applyVolumeSync, h]
    · intro hx
      rcases Option.isSome_iff_exists.mp hx with ⟨a, ha⟩
      simp [applyVolumeSync, h, ha]
    · intro hx
      rcases Option.isSome_iff_exists.mp hx with ⟨a, ha⟩
      simp [applyVolumeSync, h, ha]
    · intro hx
      rcases Option.isSome_iff_exists.mp hx with ⟨a, ha⟩
      simp [applyVolumeSync, h, ha]
  · intro h hb
    refine ⟨?_, ?_, ?_, ?_, ?_⟩ <;> simp [ensureAudioContext, h, hb]
    intro hm
    simp [hm]
  · intro h
    refine ⟨?_, ?_, ?_⟩
    · simp [applyVolumeSync, h]
    · simp only [ensureMiniConnected, h]
      split_ifs <;> simp [h]
    · simp [ensureAudioContext, h]

/-- Witness for gain_stage_mechanism at a concrete pre-graph state with
both elements present and gains big 1, small 0, master 1: the element
volumes become 1 * 1 and 0 * 1, and constructing the graph afterwards
succeeds without throwing. -/
theorem gain_stage_mechanism_witness :
    (applyVolumeSync
      { ctxCreated := false, bgPresent := true, muPresent := true,
        bgElemVol := 0, muElemVol := 0, bgSourceNode := false,
        muSourceNode := false, bgGain := none, muGain := none,
        masterGain := none } 1 0 1).bgElemVol = 1 * 1 ∧
    (ensureAudioContext
      { ctxCreated := false, bgPresent := true, muPresent := true,
        bgElemVol := 0, muElemVol := 0, bgSourceNode := false,
        muSourceNode := false, bgGain := none, muGain := none,
        masterGain := none } 1 1).2 = false := by
  have h := gain_stage_mechanism
    { ctxCreated := false, bgPresent := true, muPresent := true,
      bgElemVol := 0, muElemVol := 0, bgSourceNode := false,
      muSourceNode := false, bgGain := none, muGain := none,
      masterGain := none } 1 0 1
  exact ⟨(h.1 rfl).1 rfl, ((gain_stage_mechanism
    { ctxCreated := false, bgPresent := true, muPresent := true,
      bgElemVol := 0, muElemVol := 0, bgSourceNode := false,
      muSourceNode := false, bgGain := none, muGain := none,
      masterGain := none } 1 1 1).2.2.1 rfl rfl).2.2.2.2⟩

/-- C5 counterexample: with no audio context and the BIG element absent,
ensureAudioContext throws (second component true) and is not a no-op (it
marks the context created), contradicting the claim of an exception-free
no-op; and the subsequent retry once both elements exist returns
immediately without building the BIG and master gain chain. -/
theorem ensureAudioContext_missing_element_counterexample :
    (ensureAudioContext
      { ctxCreated := false, bgPresent := false, muPresent := false,
        bgElemVol := 0, muElemVol := 0, bgSourceNode := false,
        muSourceNode := false, bgGain := none, muGain := none,
        masterGain := none } 1 1).2 = true ∧
    (ensureAudioContext
      { ctxCreated := false, bgPresent := false, muPresent := false,
        bgElemVol := 0, muElemVol := 0, bgSourceNode := false,
        muSourceNode := false, bgGain := none, muGain := none,
        masterGain := none } 1 1).1.ctxCreated = true ∧
    (ensureAudioContext
      { ctxCreated := true, bgPresent := true, muPresent := true,
        bgElemVol := 0, muElemVol := 0, bgSourceNode := false,
        muSourceNode := false, bgGain := none, muGain := none,
        masterGain := none } 1 1).1.masterGain = none ∧
    (ensureAudioContext
      { ctxCreated := true, bgPresent := true, muPresent := true,
        bgElemVol := 0, muElemVol := 0, bgSourceNode := false,
        muSourceNode := false, bgGain := none, muGain := none,
        masterGain := none } 1 1).1.bgGain = none := by
  refine ⟨rfl, rfl, rfl, rfl⟩

/-- C5 (amended): calling ensureAudioContext before the BIG track element
exists throws a TypeError from createMediaElementSource after already
creating the audio context and pinning any present element volumes, so it
is neither a no-op nor exception-free; and because the context is now
marked created, any later call, in particular a retry once the elements
exist, returns immediately without constructing the BIG and master gain
chain. -/
theorem ensureAudioContext_missing_element_throws (s : AudioGraph)
    (v1 v3 : ℚ) (h : s.ctxCreated = false) (hb : s.bgPresent = false) :
    (ensureAudioContext s v1 v3).2 = true ∧
    (ensureAudioContext s v1 v3).1.ctxCreated = true ∧
    (ensureAudioContext s v1 v3).1.bgGain = s.bgGain ∧
    (ensureAudioContext s v1 v3).1.masterGain = s.masterGain ∧
    (∀ s2 : AudioGraph, s2.ctxCreated = true →
      ∀ w1 w3 : ℚ, ensureAudioContext s2 w1 w3 = (s2, false)) := by
  refine ⟨?_, ?_, ?_, ?_, ?_⟩
  · simp [ensureAudioContext, h, hb]
  · simp [ensureAudioContext, h, hb]
  · simp [ensureAudioContext, h, hb]
  · simp [ensureAudioContext, h, hb]
  · intro s2 h2 w1 w3
    simp [ensureAudioContext, h2]

/-- Witness for ensureAudioContext_missing_element_throws at the concrete
context-free, element-free state. -/
theorem ensureAudioContext_missing_element_throws_witness :
    (ensureAudioContext
      { ctxCreated := false, bgPresent := false, muPresent := false,
        bgElemVol := 1, muElemVol := 1, bgSourceNode := false,
        muSourceNode := false, bgGain := none, muGain := none,
        masterGain := none } (7/10) (2/5)).2 = true ∧
    (ensureAudioContext
      { ctxCreated := false, bgPresent := false, muPresent := false,
        bgElemVol := 1, muElemVol := 1, bgSourceNode := false,
        muSourceNode := false, bgGain := none, muGain := none,
        masterGain := none } (7/10) (2/5)).1.ctxCreated = true := by
  have h := ensureAudioContext_missing_element_throws
    { ctxCreated := false, bgPresent := false, muPresent := false,
      bgElemVol := 1, muElemVol := 1, bgSourceNode := false,
      muSourceNode := false, bgGain := none, muGain := none,
      masterGain := none } (7/10) (2/5) rfl rfl
  exact ⟨h.1, h.2.1⟩

theorem stopRecording_recState_ne (t : RecSession) :
    (stopRecording t).recState ≠ some true := by
  cases hr : t.recState with
  | none => simp [stopRecording, hr]
  | some b => cases b <;> simp [stopRecording, hr]

theorem secondTick_stopped (s : RecSession) (hI : s.intervalSet = false)
    (hT : s.timeoutSet = false) :
    secondTick s = { s with elapsedSec := s.elapsedSec + 1 } := by
  simp [secondTick, recIntervalFire, recTimeoutFire, hI, hT]

theorem recTimeoutFire_ne (s : RecSession) (h : s.recState ≠ some true) :
    (recTimeoutFire s).recState ≠ some true := by
  unfold recTimeoutFire
  split_ifs
  · exact stopRecording_recState_ne _
  · exact h

theorem recRun_formula (n : ℕ) :
    secondTick^[n] recStart =
      if n < RECORD_LIMIT_SEC then
        { recStart with recTime := n, elapsedSec := n }
      else recStopped n := by
  induction n with
  | zero =>
    rw [if_pos (by norm_num [RECORD_LIMIT_SEC])]
    rfl
  | succ n ih =>
    rw [Function.iterate_succ_apply', ih]
    by_cases h : n + 1 < RECORD_LIMIT_SEC
    · rw [if_pos (by omega), if_pos h]
      have hlim : ¬ (RECORD_LIMIT_SEC ≤ n + 1) := by omega
      simp [secondTick, recIntervalFire, recTimeoutFire, recStart, hlim]
    · by_cases h0 : n < RECORD_LIMIT_SEC
      · have h99 : n = 99 := by
          have : RECORD_LIMIT_SEC = 100 := rfl
          omega
        subst h99
        rw [if_pos (by norm_num [RECORD_LIMIT_SEC]), if_neg h]
        decide
      · rw [if_neg h0, if_neg h]
        rw [secondTick_stopped (recStopped n) rfl rfl]
        rfl

/-- C6: the recording session armed by startRecording is terminated by its
own stop triggers with a recorded duration never exceeding the ceiling:
after RECORD_LIMIT_SEC one-second ticks (with no explicit stop call) the
recorder is inactive and both triggers are disarmed, any state in which
the recorder is still recording is strictly below the ceiling, each of the
two independent triggers firing suffices to terminate the session, both
are armed at start, and both are configured from the same 100-second
ceiling (interval period 1000 ms, deadline 100 * 1000 ms). -/
theorem record_limit_enforced (n : ℕ) :
    (RECORD_LIMIT_SEC ≤ n →
      (secondTick^[n] recStart).recState = some false ∧
      (secondTick^[n] recStart).intervalSet = false ∧
      (secondTick^[n] recStart).timeoutSet = false ∧
      (secondTick^[n] recStart).finalizeCount = 1) ∧
    ((secondTick^[n] recStart).recState = some true → n < RECORD_LIMIT_SEC) ∧
    (∀ s : RecSession, s.intervalSet = true → RECORD_LIMIT_SEC ≤ s.recTime + 1 →
      (secondTick s).recState ≠ some true) ∧
    (∀ s : RecSession, s.timeoutSet = true → RECORD_LIMIT_SEC ≤ s.elapsedSec + 1 →
      (secondTick s).recState ≠ some true) ∧
    recStart.intervalSet = true ∧ recStart.timeoutSet = true ∧
    RECORD_LIMIT_SEC = 100 ∧ recordTimeoutDelayMs = RECORD_LIMIT_SEC * 1000 ∧
    recIntervalPeriodMs = 1000 := by
  refine ⟨?_, ?_, ?_, ?_, rfl, rfl, rfl, rfl, rfl⟩
  · intro h
    rw [recRun_formula n, if_neg (by omega)]
    exact ⟨rfl, rfl, rfl, rfl⟩
  · intro h
    by_contra hn
    rw [recRun_formula n, if_neg hn] at h
    simp [recStopped] at h
  · intro s hI hlim
    unfold secondTick
    apply recTimeoutFire_ne
    unfold recIntervalFire
    rw [if_pos hI, if_pos hlim]
    exact stopRecording_recState_ne _
  · intro s hT hlim
    unfold secondTick
    unfold recIntervalFire
    by_cases hI : ({ s with elapsedSec := s.elapsedSec + 1 } : RecSession).intervalSet = true
    · rw [if_pos hI]
      by_cases hc : RECORD_LIMIT_SEC ≤ s.recTime + 1
      · rw [if_pos hc]
        exact recTimeoutFire_ne _ (stopRecording_recState_ne _)
      · rw [if_neg hc]
        unfold recTimeoutFire
        rw [if_pos ⟨hT, by simpa using hlim⟩]
        exact stopRecording_recState_ne _
    · rw [if_neg hI]
      unfold recTimeoutFire
      rw [if_pos ⟨hT, by simpa using hlim⟩]
      exact stopRecording_recState_ne _

/-- Witness for record_limit_enforced: after 150 un-stopped seconds the
recorder is inactive with exactly one finalize request, and the state
after 150 ticks indeed has both triggers cleared. -/
theorem record_limit_enforced_witness :
    (secondTick^[150] recStart).recState = some false ∧
    (secondTick^[150] recStart).intervalSet = false ∧
    (secondTick^[150] recStart).finalizeCount = 1 := by
  have h := (record_limit_enforced 150).1 (by norm_num [RECORD_LIMIT_SEC])
  exact ⟨h.1, h.2.1, h.2.2.2⟩

theorem recInv_stopRecording (s : RecSession) (hs : RecInv s) :
    RecInv (stopRecording s) := by
  obtain ⟨h1, h2, h3, h4, h5, h6, h7, h8⟩ := hs
  cases hr : s.recState with
  | none =>
    refine ⟨?_, ?_, ?_, ?_, ?_, ?_, ?_, ?_⟩ <;> simp [stopRecording, hr] <;> assumption
  | some b =>
    cases b
    · refine ⟨?_, ?_, ?_, ?_, ?_, ?_, ?_, ?_⟩ <;> simp [stopRecording, hr] <;> assumption
    · have h0 : s.finalizeCount = 0 := h5 hr
      refine ⟨?_, ?_, ?_, ?_, ?_, ?_, ?_, ?_⟩ <;> simp [stopRecording, hr, h0] <;> assumption

theorem recInv_recOnstopRaf (s : RecSession) (hs : RecInv s) :
    RecInv (recOnstopRaf s) := by
  obtain ⟨h1, h2, h3, h4, h5, h6, h7, h8⟩ := hs
  unfold recOnstopRaf
  split_ifs with hr
  · exact ⟨h1, by simp [h6 hr], h3, h4, h5, by simp, h7, h8⟩
  · exact ⟨h1, h2, h3, h4, h5, h6, h7, h8⟩

theorem recInv_recOnstopAudio (s : RecSession) (hs : RecInv s) :
    RecInv (recOnstopAudio s) := by
  obtain ⟨h1, h2, h3, h4, h5, h6, h7, h8⟩ := hs
  unfold recOnstopAudio
  split_ifs with hr
  · exact ⟨h1, h2, by simp [h7 hr], h4, h5, h6, by simp, h8⟩
  · exact ⟨h1, h2, h3, h4, h5, h6, h7, h8⟩

theorem recInv_recOnstopStream (s : RecSession) (hs : RecInv s) :
    RecInv (recOnstopStream s) := by
  obtain ⟨h1, h2, h3, h4, h5, h6, h7, h8⟩ := hs
  unfold recOnstopStream
  split_ifs with hr
  · exact ⟨h1, h2, h3, by simp [h8 hr], h5, h6, h7, by simp⟩
  · exact ⟨h1, h2, h3, h4, h5, h6, h7, h8⟩

theorem recInv_recOnstop (s : RecSession) (hs : RecInv s) :
    RecInv (recOnstop s) := by
  unfold recOnstop
  split_ifs with hp
  · exact hs
  · apply recInv_recOnstopStream
    apply recInv_recOnstopAudio
    have h1 : RecInv (recOnstopRaf { s with pendingOnstop := false }) :=
      recInv_recOnstopRaf _ hs
    obtain ⟨g1, g2, g3, g4, g5, g6, g7, g8⟩ := h1
    exact ⟨g1, g2, g3, g4, by simp, g6, g7, g8⟩

theorem recInv_recRun (evs : List RecEvent) :
    ∀ s : RecSession, RecInv s → RecInv (recRun s evs) := by
  induction evs with
  | nil => intro s hs; exact hs
  | cons e rest ih =>
    intro s hs
    cases e with
    | callStop => exact ih _ (recInv_stopRecording s hs)
    | onstop => exact ih _ (recInv_recOnstop s hs)

theorem recInv_recStart : RecInv recStart := by
  refine ⟨?_, ?_, ?_, ?_, ?_, ?_, ?_, ?_⟩ <;> simp [recStart, RecInv]

/-- C7: along any sequence of stopRecording calls and onstop deliveries
from a live recording session, finalize is requested at most once and the
render loop, the audio tap and the capture-stream tracks are each released
at most once; moreover every single stopRecording call clears both stop
triggers, pauses both tracks and clears the playing flag, requests
finalize exactly once when the recorder is still recording, and when no
recorder is active it still clears the recording UI flag while requesting
nothing. -/
theorem stopRecording_idempotent_safe :
    (∀ evs : List RecEvent,
      (recRun recStart evs).finalizeCount ≤ 1 ∧
      (recRun recStart evs).rafCancelCount ≤ 1 ∧
      (recRun recStart evs).audioReleaseCount ≤ 1 ∧
      (recRun recStart evs).streamStopCount ≤ 1) ∧
    (∀ t : RecSession,
      (stopRecording t).intervalSet = false ∧
      (stopRecording t).timeoutSet = false ∧
      (stopRecording t).bgPaused = true ∧
      (stopRecording t).muPaused = true ∧
      (stopRecording t).isPlaying = false ∧
      (t.recState = some true →
        (stopRecording t).finalizeCount = t.finalizeCount + 1 ∧
        (stopRecording t).pendingOnstop = true) ∧
      (t.recState ≠ some true →
        (stopRecording t).isRecording = false ∧
        (stopRecording t).finalizeCount = t.finalizeCount)) := by
  constructor
  · intro evs
    have h := recInv_recRun evs recStart recInv_recStart
    exact ⟨h.1, h.2.1, h.2.2.1, h.2.2.2.1⟩
  · intro t
    cases hr : t.recState with
    | none =>
      refine ⟨by simp [stopRecording, hr], by simp [stopRecording, hr],
        by simp [stopRecording, hr], by simp [stopRecording, hr],
        by simp [stopRecording, hr], ?_, ?_⟩
      · intro hx
        simp at hx
      · intro _
        constructor <;> simp [stopRecording, hr]
    | some b =>
      cases b
      · refine ⟨by simp [stopRecording, hr], by simp [stopRecording, hr],
          by simp [stopRecording, hr], by simp [stopRecording, hr],
          by simp [stopRecording, hr], ?_, ?_⟩
        · intro hx
          simp at hx
        · intro _
          constructor <;> simp [stopRecording, hr]
      · refine ⟨by simp [stopRecording, hr], by simp [stopRecording, hr],
          by simp [stopRecording, hr], by simp [stopRecording, hr],
          by simp [stopRecording, hr], ?_, ?_⟩
        · intro _
          constructor <;> simp [stopRecording, hr]
        · intro hx
          exact absurd rfl hx

/-- Witness for stopRecording_idempotent_safe: two stop calls with the
onstop delivery in between release everything exactly once (evaluated by
decide on the concrete run), and a stop call on a live session clears both
triggers. -/
theorem stopRecording_idempotent_safe_witness :
    (recRun recStart
        [RecEvent.callStop, RecEvent.callStop, RecEvent.onstop,
         RecEvent.callStop]).finalizeCount ≤ 1 ∧
    (stopRecording recStart).intervalSet = false ∧
    (stopRecording recStart).timeoutSet = false ∧
    (recRun recStart
        [RecEvent.callStop, RecEvent.callStop, RecEvent.onstop,
         RecEvent.callStop]).finalizeCount = 1 ∧
    (recRun recStart
        [RecEvent.callStop, RecEvent.callStop, RecEvent.onstop,
         RecEvent.callStop]).audioReleaseCount = 1 := by
  refine ⟨(stopRecording_idempotent_safe.1
      [RecEvent.callStop, RecEvent.callStop, RecEvent.onstop,
       RecEvent.callStop]).1,
    (stopRecording_idempotent_safe.2 recStart).1,
    (stopRecording_idempotent_safe.2 recStart).2.1, by decide, by decide⟩

/-- C8: the scan accepts a decoded text exactly when it parses as a JSON
object with a string id prefixed gw-, a string createdAt and a volumes
object with numeric big, small and master fields; the sampling loop
returns none exactly when every sampled frame misses on both the crop and
the full-frame attempt (a recognized not-found value, no exception path);
and the first accepted decode wins, with scanning stopping there. -/
theorem goodwills_qr_scan_spec :
    (∀ p : Option Json, isGoodwillsQRPayload p = true ↔ GoodwillsShape p) ∧
    (∀ frames : List ScanFrame,
      scanGoodwillsQr frames = none ↔ ∀ f ∈ frames, frameMisses f) ∧
    (∀ (pre post : List ScanFrame) (f : ScanFrame) (r : String × Json),
      (∀ g ∈ pre, frameMisses g) →
      (checkAttempt f.crop = some r ∨
        (checkAttempt f.crop = none ∧ checkAttempt f.full = some r)) →
      scanGoodwillsQr (pre ++ f :: post) = some r) := by
  have hBool : (("boolean" : String) == "object") = false := by decide
  have hNum : (("number" : String) == "object") = false := by decide
  have hStr : (("string" : String) == "object") = false := by decide
  have hObj : (("object" : String) == "object") = true := by decide
  refine ⟨?_, ?_, ?_⟩
  · intro p
    constructor
    · intro h
      cases p with
      | none => simp [isGoodwillsQRPayload] at h
      | some o =>
        cases o with
        | null => simp [isGoodwillsQRPayload, jsTruthy] at h
        | bool b => simp [isGoodwillsQRPayload, jsTypeof, hBool] at h
        | num q => simp [isGoodwillsQRPayload, jsTypeof, hNum] at h
        | str t => simp [isGoodwillsQRPayload, jsTypeof, hStr] at h
        | arr l => simp [isGoodwillsQRPayload, getProp] at h
        | obj fields =>
          simp only [isGoodwillsQRPayload, jsTruthy, jsTypeof, hObj,
            getProp, Bool.true_and, Bool.and_eq_true] at h
          obtain ⟨⟨hid, hcr⟩, hvol⟩ := h
          cases hid_eq : lookupField fields "id" with
          | none => rw [hid_eq] at hid; exact absurd hid (by simp)
          | some vid =>
            rw [hid_eq] at hid
            cases vid with
            | null => exact absurd hid (by simp)
            | bool b => exact absurd hid (by simp)
            | num q => exact absurd hid (by simp)
            | arr l => exact absurd hid (by simp)
            | obj fl => exact absurd hid (by simp)
            | str idStr =>
              cases hcr_eq : lookupField fields "createdAt" with
              | none => rw [hcr_eq] at hcr; exact absurd hcr (by simp)
              | some vcr =>
                rw [hcr_eq] at hcr
                cases vcr with
                | null => exact absurd hcr (by simp)
                | bool b => exact absurd hcr (by simp)
                | num q => exact absurd hcr (by simp)
                | arr l => exact absurd hcr (by simp)
                | obj fl => exact absurd hcr (by simp)
                | str cStr =>
                  cases hv_eq : lookupField fields "volumes" with
                  | none => rw [hv_eq] at hvol; exact absurd hvol (by simp)
                  | some vv =>
                    rw [hv_eq] at hvol
                    cases vv with
                    | null => exact absurd hvol (by simp [jsTruthy])
                    | bool b => exact absurd hvol (by simp [getProp])
                    | num q => exact absurd hvol (by simp [getProp])
                    | str t => exact absurd hvol (by simp [getProp])
                    | arr l => exact absurd hvol (by simp [getProp])
                    | obj vf =>
                      simp only [jsTruthy, getProp, Bool.true_and,
                        Bool.and_eq_true] at hvol
                      obtain ⟨⟨hb, hs⟩, hm⟩ := hvol
                      cases hb_eq : lookupField vf "big" with
                      | none => rw [hb_eq] at hb; exact absurd hb (by simp)
                      | some vb =>
                        rw [hb_eq] at hb
                        cases vb with
                        | null => exact absurd hb (by simp)
                        | bool x => exact absurd hb (by simp)
                        | str x => exact absurd hb (by simp)
                        | arr x => exact absurd hb (by simp)
                        | obj x => exact absurd hb (by simp)
                        | num qb =>
                          cases hs_eq : lookupField vf "small" with
                          | none => rw [hs_eq] at hs; exact absurd hs (by simp)
                          | some vs =>
                            rw [hs_eq] at hs
                            cases vs with
                            | null => exact absurd hs (by simp)
                            | bool x => exact absurd hs (by simp)
                            | str x => exact absurd hs (by simp)
                            | arr x => exact absurd hs (by simp)
                            | obj x => exact absurd hs (by simp)
                            | num qs =>
                              cases hm_eq : lookupField vf "master" with
                              | none =>
                                rw [hm_eq] at hm
                                exact absurd hm (by simp)
                              | some vm =>
                                rw [hm_eq] at hm
                                cases vm with
                                | null => exact absurd hm (by simp)
                                | bool x => exact absurd hm (by simp)
                                | str x => exact absurd hm (by simp)
                                | arr x => exact absurd hm (by simp)
                                | obj x => exact absurd hm (by simp)
                                | num qm =>
                                  exact ⟨fields, idStr, cStr, vf, qb, qs, qm,
                                    rfl, hid_eq, hid, hcr_eq, hv_eq,
                                    hb_eq, hs_eq, hm_eq⟩
    · rintro ⟨fields, idStr, cStr, vFields, qb, qs, qm, hp, h1, h2, h3,
        h4, h5, h6, h7⟩
      subst hp
      simp [isGoodwillsQRPayload, jsTruthy, jsTypeof, getProp,
        h1, h2, h3, h4, h5, h6, h7, hObj]
  · intro frames
    induction frames with
    | nil => simp [scanGoodwillsQr]
    | cons f rest ih =>
      constructor
      · intro h
        cases hc : checkAttempt f.crop with
        | some r =>
          simp only [scanGoodwillsQr, hc] at h
          cases h
        | none =>
          cases hf : checkAttempt f.full with
          | some r =>
            simp only [scanGoodwillsQr, hc, hf] at h
            cases h
          | none =>
            simp only [scanGoodwillsQr, hc, hf] at h
            intro g hg
            rcases List.mem_cons.mp hg with hg1 | hg2
            · subst hg1
              exact ⟨hc, hf⟩
            · exact (ih.mp h) g hg2
      · intro h
        have hf := h f (List.mem_cons_self f rest)
        simp only [scanGoodwillsQr, hf.1, hf.2]
        exact ih.mpr fun g hg => h g (List.mem_cons_of_mem f hg)
  · intro pre
    induction pre with
    | nil =>
      intro post f r _ hacc
      rcases hacc with hc | ⟨hc, hfull⟩
      · simp only [List.nil_append, scanGoodwillsQr, hc]
      · simp only [List.nil_append, scanGoodwillsQr, hc, hfull]
    | cons g pre ih =>
      intro post f r hpre hacc
      have hg := hpre g (List.mem_cons_self g pre)
      simp only [List.cons_append, scanGoodwillsQr, hg.1, hg.2]
      exact ih post f r (fun x hx => hpre x (List.mem_cons_of_mem g hx)) hacc

/-- Witness for goodwills_qr_scan_spec: a first frame with no QR followed
by a frame whose crop decodes to the sample payload yields that payload
(first hit wins), the sample payload has the accepted shape, and a scan in
which every frame misses returns the not-found value none. -/
theorem goodwills_qr_scan_spec_witness :
    scanGoodwillsQr [qrMissFrame, qrHitFrame]
      = some ("GWTEXT", qrSampleJson) ∧
    GoodwillsShape (some qrSampleJson) ∧
    scanGoodwillsQr [qrMissFrame, qrMissFrame] = none := by
  refine ⟨?_, ?_, ?_⟩
  · exact goodwills_qr_scan_spec.2.2 [qrMissFrame] [] qrHitFrame
      ("GWTEXT", qrSampleJson)
      (by
        intro g hg
        simp only [List.mem_singleton] at hg
        subst hg
        exact ⟨rfl, rfl⟩)
      (Or.inl rfl)
  · exact (goodwills_qr_scan_spec.1 (some qrSampleJson)).mp rfl
  · exact (goodwills_qr_scan_spec.2.1 [qrMissFrame, qrMissFrame]).mpr
      (by
        intro g hg
        rcases List.mem_cons.mp hg with h1 | h2
        · subst h1
          exact ⟨rfl, rfl⟩
        · simp only [List.mem_singleton] at h2
          subst h2
          exact ⟨rfl, rfl⟩)

/-- C9 counterexample: a pack whose mint.json entry is present but does
not parse as JSON makes readMintPackFile fail, so the open does not fail
exactly when the metadata entry is absent: here the entry is present
(some none, not none) and the open still errors. -/
theorem readMintPackFile_parse_failure_counterexample :
    (∃ e, readMintPackFile (some none) (some "video.webm")
      = Except.error e) ∧
    some (none : Option Json) ≠ (none : Option (Option Json)) :=
  ⟨⟨"JSON.parse: unexpected token", rfl⟩, by simp⟩

/-- C9 (amended): opening a mint pack fails exactly when the mint.json
entry is absent or its text does not parse as JSON; whenever mint.json
parses, the open succeeds with the parsed metadata, and in particular an
absent video.webm yields a null video payload instead of a failure. -/
theorem readMintPackFile_open_contract
    (mintEntry : Option (Option Json)) (videoEntry : Option String) :
    ((∃ e, readMintPackFile mintEntry videoEntry = Except.error e) ↔
      (mintEntry = none ∨ mintEntry = some none)) ∧
    (∀ j : Json, readMintPackFile (some (some j)) none
      = Except.ok (j, none)) ∧
    (∀ (j : Json) (v : Option String),
      readMintPackFile (some (some j)) v = Except.ok (j, v)) := by
  refine ⟨⟨?_, ?_⟩, fun j => rfl, fun j v => rfl⟩
  · intro he
    obtain ⟨e, he⟩ := he
    cases mintEntry with
    | none => exact Or.inl rfl
    | some m =>
      cases m with
      | none => exact Or.inr rfl
      | some j => simp [readMintPackFile] at he
  · intro h
    rcases h with h | h <;> subst h
    · exact ⟨"mint.json not found", rfl⟩
    · exact ⟨"JSON.parse: unexpected token", rfl⟩

/-- Witness for readMintPackFile_open_contract: a pack with parsed
metadata and no video entry opens with a null video payload, and a pack
with no mint.json entry errors. -/
theorem readMintPackFile_open_contract_witness :
    readMintPackFile (some (some (Json.str "meta"))) none
      = Except.ok (Json.str "meta", none) ∧
    (∃ e, readMintPackFile (none : Option (Option Json)) (some "v")
      = Except.error e) :=
  ⟨(readMintPackFile_open_contract (some (some (Json.str "meta"))) none).2.1
      (Json.str "meta"),
    (readMintPackFile_open_contract none (some "v")).1.mpr (Or.inl rfl)⟩
